import Mathlib

/-- A JavaScript error value, reduced to its name and message (the fields the
cache ever constructs or compares). -/
structure JsError where
  name : String
  message : String
deriving DecidableEq

/-- A JavaScript value, as far as this cache inspects one: the second
positional argument of verify and the decoded header range over these. -/
inductive JsVal where
  | vUndefined
  | vNull
  | vBool (b : Bool)
  | vNum (n : Int)
  | vStr (s : String)
  | vObj (nbf exp : Option Int)
deriving DecidableEq

/-- JS typeof, for the values above (typeof null is the string object). -/
def jsTypeof : JsVal → String
  | .vUndefined => "undefined"
  | .vNull => "object"
  | .vBool _ => "boolean"
  | .vNum _ => "number"
  | .vStr _ => "string"
  | .vObj _ _ => "object"

/-- JS truthiness for the values above. -/
def jsTruthy : JsVal → Bool
  | .vUndefined => false
  | .vNull => false
  | .vBool b => b
  | .vNum n => n != 0
  | .vStr s => s != ""
  | .vObj _ _ => true

/-- The payload of a decoded JWT as produced by the jsonwebtoken collaborator:
decode yields either a raw string payload or a non-null claims object (its
JSON.parse result is only kept when it is a non-null object). The recognized
numeric claims nbf and exp are modelled; both optional, integer seconds. -/
inductive Payload where
  | pStr (s : String)
  | pObj (nbf exp : Option Int)
deriving DecidableEq

/-- The result of decode(token, complete true): header, payload, signature. -/
structure Decoded where
  header : JsVal
  payload : Payload
  signature : String
deriving DecidableEq

/-- Cache-wide options recognized by getMaxAge (other verifier options are
opaque to the cache and absorbed into the verifier oracle). -/
structure Config where
  clockTolerance : Int
  ignoreNotBefore : Bool
  ignoreExpiration : Bool
deriving DecidableEq

/-- JS truthiness of an optional numeric claim: absent and 0 are falsy. -/
def numTruthy : Option Int → Bool
  | some n => n != 0
  | none => false

/-- The private getMaxAge helper (index.js lines 43-56): milliseconds until
the token validation may change, or none. Faithful to the source, the nbf and
exp guards use JS truthiness (nbf and exp) and currentTime is
Math.floor(Date.now() / 1000), modelled as Nat division of the ms clock. -/
def getMaxAge (cfg : Config) (payload : Payload) (nowMs : Nat) : Option Int :=
  match payload with
  | .pStr _ => none
  | .pObj nbf exp =>
    let currentTime : Int := ((nowMs / 1000 : Nat) : Int)
    if !cfg.ignoreNotBefore && numTruthy nbf
        && decide (currentTime + cfg.clockTolerance < nbf.getD 0) then
      some ((nbf.getD 0 - cfg.clockTolerance - currentTime) * 1000)
    else if !cfg.ignoreExpiration && numTruthy exp
        && decide (currentTime - cfg.clockTolerance < exp.getD 0) then
      some ((exp.getD 0 + cfg.clockTolerance - currentTime) * 1000)
    else none

/-- The instant (in whole seconds) at which the token validation may change,
read off the same guards as getMaxAge: the nbf branch schedules
nbf - clockTolerance, the exp branch exp + clockTolerance. -/
def deadlineSec (cfg : Config) (payload : Payload) (nowMs : Nat) : Option Int :=
  match payload with
  | .pStr _ => none
  | .pObj nbf exp =>
    let currentTime : Int := ((nowMs / 1000 : Nat) : Int)
    if !cfg.ignoreNotBefore && numTruthy nbf
        && decide (currentTime + cfg.clockTolerance < nbf.getD 0) then
      some (nbf.getD 0 - cfg.clockTolerance)
    else if !cfg.ignoreExpiration && numTruthy exp
        && decide (currentTime - cfg.clockTolerance < exp.getD 0) then
      some (exp.getD 0 + cfg.clockTolerance)
    else none

/-- A stored cache entry: the pair set by the cache ([error, result]) together
with the bookkeeping the lru-cache collaborator keeps per entry (insertion
timestamp in ms and the per-entry maxAge in ms, none when unset). -/
structure Entry where
  error : Option JsError
  result : Decoded
  insertedAt : Nat
  maxAge : Option Int
deriving DecidableEq

/-- The lru-cache collaborator, modelled as an association list from token to
entry with the documented TTL behavior: an entry with a maxAge is stale once
strictly more than maxAge ms have elapsed since insertion; has and get ignore
stale entries; dump exposes e as insertedAt plus maxAge (0 when unset).
Byte-budget LRU eviction is not exercised by any claim under proof and is not
modelled (the budget is treated as ample, as the spec scenarios assume). -/
structure Store where
  entries : List (String × Entry)
deriving DecidableEq

/-- Look up the entry stored under a token (ignoring staleness). -/
def Store.find (st : Store) (token : String) : Option Entry :=
  (st.entries.find? (fun p => p.1 == token)).map (fun p => p.2)

/-- Staleness of an entry at a given ms clock: only entries with a maxAge
go stale, strictly after maxAge ms have elapsed. -/
def Entry.isStale (en : Entry) (nowMs : Nat) : Bool :=
  match en.maxAge with
  | none => false
  | some m => decide ((nowMs : Int) - (en.insertedAt : Int) > m)

/-- The has operation (cache.has, and the class has wrapper at lines
106-108): an unexpired entry exists for the exact token string. -/
def Store.hasKey (st : Store) (token : String) (nowMs : Nat) : Bool :=
  match st.find token with
  | none => false
  | some en => ! en.isStale nowMs

/-- cache.set(token, [error, result], maxAge): insert or replace the entry
under the token, stamped with the current ms clock. -/
def Store.set (st : Store) (token : String) (error : Option JsError)
    (result : Decoded) (maxAge : Option Int) (nowMs : Nat) : Store :=
  ⟨(token, ⟨error, result, nowMs, maxAge⟩)
    :: st.entries.filter (fun p => p.1 != token)⟩

/-- The shaped result: complete truthy gives the full decode envelope,
otherwise just its payload (result versus result.payload in the source). -/
inductive Shaped where
  | full (d : Decoded)
  | payloadOnly (p : Payload)
deriving DecidableEq

/-- The outcome object the internal routine produces: error and result. -/
structure Outcome where
  error : Option JsError
  result : Shaped
deriving DecidableEq

/-- complete result shaping, per the source expression complete then result
else result.payload. -/
def shapeResult (complete : JsVal) (d : Decoded) : Shaped :=
  if jsTruthy complete then .full d else .payloadOnly d.payload

/-- Instrumentation of one internal call: how often the verifier primitive,
the TTL computation, and the store were touched. -/
structure Stats where
  verifierCalls : Nat
  maxAgeCalls : Nat
  cacheReads : Nat
  cacheWrites : Nat
deriving DecidableEq

/-- The usage error thrown at lines 66-67 for a string second argument. -/
def usageError : JsError :=
  ⟨"Error",
   "You can only set secretOrPrivateKey in the constructor, not in the second param to verify()."⟩

/-- The TypeError thrown when the miss path reads result.payload off the
null returned by decode for an undecodable token (line 73). -/
def typeErrorNullPayload : JsError :=
  ⟨"TypeError", "Cannot read property payload of null"⟩

deriving instance DecidableEq for Except

/-- The error component of a verifier call: the rejection reason, or none on
success (the try/catch at lines 81-85 and the catch at line 77). -/
def errPart : Except JsError JsVal → Option JsError
  | .ok _ => none
  | .error e => some e

/-- The internal verification routine, the symbol-keyed [verify] method
(lines 65-98). The decode collaborator is the oracle dec (none models the
null decode of an undecodable token) and the verifier primitive is the
oracle vf, whose successful return value the source discards. The promise
and synchronous branches of the source perform the same decode, TTL
computation, verifier call, store write and shaping in the same order and
differ only in asynchrony, so a single function models both; the three
public wrappers below select the calling convention. A thrown error is the
Except.error component; the store and stats are returned in every case
(state is unchanged on a throw because the throw happens before any write). -/
def verifyInternal (cfg : Config) (dec : String → Option Decoded)
    (vf : String → Except JsError JsVal) (st : Store) (token : String)
    (complete : JsVal) (nowMs : Nat) :
    Except JsError Outcome × Store × Stats :=
  if jsTypeof complete == "string" then
    (.error usageError, st, ⟨0, 0, 0, 0⟩)
  else if ! st.hasKey token nowMs then
    match dec token with
    | none => (.error typeErrorNullPayload, st, ⟨0, 0, 1, 0⟩)
    | some result =>
      let maxAge := getMaxAge cfg result.payload nowMs
      let error := errPart (vf token)
      (.ok ⟨error, shapeResult complete result⟩,
       st.set token error result maxAge nowMs, ⟨1, 1, 1, 1⟩)
  else
    match st.find token with
    | some en => (.ok ⟨en.error, shapeResult complete en.result⟩, st, ⟨0, 0, 2, 0⟩)
    | none => (.error typeErrorNullPayload, st, ⟨0, 0, 2, 0⟩)

/-- JS String conversion of an Error: name, colon, message (name alone when
the message is empty). -/
def errToString (e : JsError) : String :=
  if e.message == "" then e.name else e.name ++ ": " ++ e.message

/-- The Error(error) expression at line 149: a fresh Error whose message is
the string rendering of its argument. -/
def errorCtor (e : JsError) : JsError := ⟨"Error", errToString e⟩

/-- The public blocking verify(token, complete) with no callback
(lines 147-151): on an outcome error, throw Error(error); otherwise return
the shaped result. -/
def verifyBlocking (cfg : Config) (dec : String → Option Decoded)
    (vf : String → Except JsError JsVal) (st : Store) (token : String)
    (complete : JsVal) (nowMs : Nat) :
    Except JsError Shaped × Store × Stats :=
  match verifyInternal cfg dec vf st token complete nowMs with
  | (.error e, st2, stats) => (.error e, st2, stats)
  | (.ok out, st2, stats) =>
    match out.error with
    | some e => (.error (errorCtor e), st2, stats)
    | none => (.ok out.result, st2, stats)

/-- The public verifyAsync (lines 130-135): on an outcome error, reject with
that stored error itself; otherwise fulfil with the shaped result. -/
def verifyAsyncFn (cfg : Config) (dec : String → Option Decoded)
    (vf : String → Except JsError JsVal) (st : Store) (token : String)
    (complete : JsVal) (nowMs : Nat) :
    Except JsError Shaped × Store × Stats :=
  match verifyInternal cfg dec vf st token complete nowMs with
  | (.error e, st2, stats) => (.error e, st2, stats)
  | (.ok out, st2, stats) =>
    match out.error with
    | some e => (.error e, st2, stats)
    | none => (.ok out.result, st2, stats)

/-- The public verify with a callback (line 146): the callback receives the
outcome pair (error, result) once the internal promise settles; a synchronous
throw from the internal routine still escapes the caller. -/
def verifyCallback (cfg : Config) (dec : String → Option Decoded)
    (vf : String → Except JsError JsVal) (st : Store) (token : String)
    (complete : JsVal) (nowMs : Nat) :
    Except JsError (Option JsError × Shaped) × Store × Stats :=
  match verifyInternal cfg dec vf st token complete nowMs with
  | (.error e, st2, stats) => (.error e, st2, stats)
  | (.ok out, st2, stats) => (.ok (out.error, out.result), st2, stats)

/-- The public diagnostic getMaxAge(token) (lines 117-121): filter the store
dump for the token (lru-cache dump omits stale entries and exposes
e as insertedAt + (maxAge or 0)); null when nothing is found, else
Math.floor((e - Date.now()) / 1000). Int division by the positive 1000 in
Lean is floor division, matching Math.floor. -/
def getMaxAgeOf (st : Store) (token : String) (nowMs : Nat) : Option Int :=
  match st.find token with
  | none => none
  | some en =>
    if en.isStale nowMs then none
    else some (((en.insertedAt : Int) + en.maxAge.getD 0 - (nowMs : Int)) / 1000)

/-- The TTL formula exactly as claim C2 words it, for comparison with the
source function: the guards require the claims to be present (isSome), where
the source requires JS truthiness. -/
def claimMaxAge (cfg : Config) (payload : Payload) (nowMs : Nat) : Option Int :=
  match payload with
  | .pStr _ => none
  | .pObj nbf exp =>
    let currentTime : Int := ((nowMs / 1000 : Nat) : Int)
    if !cfg.ignoreNotBefore && nbf.isSome
        && decide (currentTime + cfg.clockTolerance < nbf.getD 0) then
      some ((nbf.getD 0 - cfg.clockTolerance - currentTime) * 1000)
    else if !cfg.ignoreExpiration && exp.isSome
        && decide (currentTime - cfg.clockTolerance < exp.getD 0) then
      some ((exp.getD 0 + cfg.clockTolerance - currentTime) * 1000)
    else none

/-- The TTL formula as claim C2 stands after amendment: identical to the
claim except that the nbf and exp guards additionally require the claim value
to be nonzero (JS truthiness of a number). -/
def claimMaxAgeAmended (cfg : Config) (payload : Payload) (nowMs : Nat) : Option Int :=
  match payload with
  | .pStr _ => none
  | .pObj nbf exp =>
    let currentTime : Int := ((nowMs / 1000 : Nat) : Int)
    if !cfg.ignoreNotBefore && (match nbf with | some n => n != 0 | none => false)
        && decide (currentTime + cfg.clockTolerance < nbf.getD 0) then
      some ((nbf.getD 0 - cfg.clockTolerance - currentTime) * 1000)
    else if !cfg.ignoreExpiration && (match exp with | some n => n != 0 | none => false)
        && decide (currentTime - cfg.clockTolerance < exp.getD 0) then
      some ((exp.getD 0 + cfg.clockTolerance - currentTime) * 1000)
    else none

/-- getMaxAge is the deadline instant, rendered as milliseconds from the
current whole second. -/
theorem getMaxAge_eq_deadline (cfg : Config) (payload : Payload) (nowMs : Nat) :
    getMaxAge cfg payload nowMs
      = (deadlineSec cfg payload nowMs).map
          (fun d => (d - ((nowMs / 1000 : Nat) : Int)) * 1000) := by
  cases payload with
  | pStr s => rfl
  | pObj nbf exp =>
    simp only [getMaxAge, deadlineSec]
    split
    · rfl
    · split <;> rfl

/-- Whenever a deadline is scheduled, it lies strictly after the current
whole second. -/
theorem deadlineSec_gt (cfg : Config) (payload : Payload) (nowMs : Nat) (d : Int)
    (h : deadlineSec cfg payload nowMs = some d) :
    ((nowMs / 1000 : Nat) : Int) < d := by
  cases payload with
  | pStr s => exact Option.noConfusion h
  | pObj nbf exp =>
    simp only [deadlineSec] at h
    split at h
    · rename_i hc
      simp only [Bool.and_eq_true, decide_eq_true_eq] at hc
      injection h with h
      omega
    · split at h
      · rename_i hc
        simp only [Bool.and_eq_true, decide_eq_true_eq] at hc
        injection h with h
        omega
      · exact absurd h (by simp)

/-- Whenever getMaxAge schedules a TTL, the TTL is at least a full second. -/
theorem getMaxAge_pos (cfg : Config) (payload : Payload) (nowMs : Nat) (m : Int)
    (h : getMaxAge cfg payload nowMs = some m) : 1000 ≤ m := by
  rw [getMaxAge_eq_deadline] at h
  cases hd : deadlineSec cfg payload nowMs with
  | none => rw [hd] at h; simp at h
  | some d =>
    rw [hd] at h
    simp only [Option.map_some'] at h
    injection h with h
    have := deadlineSec_gt cfg payload nowMs d hd
    omega

/-- Finding a token right after setting it yields the fresh entry. -/
theorem store_find_set (st : Store) (token : String) (error : Option JsError)
    (result : Decoded) (maxAge : Option Int) (nowMs : Nat) :
    (st.set token error result maxAge nowMs).find token
      = some ⟨error, result, nowMs, maxAge⟩ := by
  simp [Store.set, Store.find, List.find?]

/-- Claim C2 as stated is refuted at exp 0: with clockTolerance 10 and the
clock at second 5, ignoreExpiration is false, exp is present and
now - clockTolerance is below exp, so the claim dictates the deadline
(exp + clockTolerance - now) * 1000 = 5000 ms, but the source guard requires
exp to be truthy and 0 is falsy in JS, so getMaxAge returns none. -/
theorem c2_counterexample :
    getMaxAge ⟨10, false, false⟩ (.pObj none (some 0)) 5000 = none
    ∧ claimMaxAge ⟨10, false, false⟩ (.pObj none (some 0)) 5000 = some 5000
    ∧ ((5000 / 1000 : Nat) : Int) - 10 < 0 := by decide

/-- Claim C2 amended: the TTL derivation returns null for a non-mapping
payload; else (nbf - clockTolerance - now) * 1000 when ignoreNotBefore is
false, nbf is present and nonzero, and now + clockTolerance < nbf; else
(exp + clockTolerance - now) * 1000 when ignoreExpiration is false, exp is
present and nonzero, and now - clockTolerance < exp; else null. -/
theorem c2_amended (cfg : Config) (payload : Payload) (nowMs : Nat) :
    getMaxAge cfg payload nowMs = claimMaxAgeAmended cfg payload nowMs := by
  cases payload with
  | pStr s => rfl
  | pObj nbf exp => cases nbf <;> cases exp <;> rfl

/-- Claim C6: the source is in the wrong on undecodable tokens. For a token
the decode collaborator cannot decode (dec returns the JS null), the miss
path reads result.payload off null at line 73 and throws a TypeError out of
the cache-population step, before any verifier invocation and without
storing anything, instead of capturing the failure into the (error, result)
pair as the propagation policy states. -/
theorem c6_code_bug :
    verifyInternal ⟨0, false, false⟩ (fun _ => none) (fun _ => .ok .vNull)
      ⟨[]⟩ "hi" (.vBool false) 1000
      = (.error typeErrorNullPayload, ⟨[]⟩, ⟨0, 0, 1, 0⟩) := by decide

/-- Claim C7 as stated is refuted by a non-string options value: passing an
options object (not a boolean) as the second positional argument does not
raise the usage error; the call proceeds, invokes the verifier once, and
returns the full decode envelope (the object is truthy, so it acts as a
truthy complete flag). -/
theorem c7_counterexample :
    (verifyInternal ⟨0, false, false⟩
        (fun _ => some ⟨.vNull, .pObj none none, "sg"⟩)
        (fun _ => .ok .vNull) ⟨[]⟩ "tok" (.vObj none none) 1000).2.2.verifierCalls = 1
    ∧ (verifyInternal ⟨0, false, false⟩
        (fun _ => some ⟨.vNull, .pObj none none, "sg"⟩)
        (fun _ => .ok .vNull) ⟨[]⟩ "tok" (.vObj none none) 1000).1
      = .ok ⟨none, .full ⟨.vNull, .pObj none none, "sg"⟩⟩ := by decide

/-- Claim C7 amended: only a string second positional argument (the shape of
a misplaced secret) raises the usage error; it is raised before any verifier
invocation and before any cache read or write, the store is returned
unchanged, and nothing is cached. -/
theorem c7_amended (cfg : Config) (dec : String → Option Decoded)
    (vf : String → Except JsError JsVal) (st : Store) (token : String)
    (s : String) (nowMs : Nat) :
    verifyInternal cfg dec vf st token (.vStr s) nowMs
      = (.error usageError, st, ⟨0, 0, 0, 0⟩) := by
  rfl

/-- Claim C5 as stated is refuted: for a token whose verification fails with
the verifier error named JsonWebTokenError with message invalid signature,
the blocking no-callback verify throws Error(error), a fresh Error whose
message is the string rendering of the stored error; the thrown value is not
the verifier error itself. -/
theorem c5_counterexample :
    (verifyBlocking ⟨0, false, false⟩
        (fun _ => some ⟨.vNull, .pObj none none, "sg"⟩)
        (fun _ => .error ⟨"JsonWebTokenError", "invalid signature"⟩)
        ⟨[]⟩ ("tok") (.vBool false) 1000).1
      = .error ⟨"Error", "JsonWebTokenError: invalid signature"⟩
    ∧ (⟨"Error", "JsonWebTokenError: invalid signature"⟩ : JsError)
        ≠ ⟨"JsonWebTokenError", "invalid signature"⟩ := by decide

/-- Claim C5 amended: when the internal routine produces an outcome carrying
error e, the blocking no-callback verify throws the wrapper Error(e) whose
message is the string rendering of e (so the cause is preserved only inside
the message, not verbatim), while verifyAsync rejects with e itself and the
callback path hands e itself to the callback. -/
theorem c5_amended (cfg : Config) (dec : String → Option Decoded)
    (vf : String → Except JsError JsVal) (st : Store) (token : String)
    (complete : JsVal) (nowMs : Nat) (out : Outcome) (e : JsError)
    (h1 : (verifyInternal cfg dec vf st token complete nowMs).1 = .ok out)
    (h2 : out.error = some e) :
    (verifyBlocking cfg dec vf st token complete nowMs).1 = .error (errorCtor e)
    ∧ (verifyAsyncFn cfg dec vf st token complete nowMs).1 = .error e
    ∧ (verifyCallback cfg dec vf st token complete nowMs).1
        = .ok (some e, out.result) := by
  rcases hvi : verifyInternal cfg dec vf st token complete nowMs with ⟨r, st2, stats⟩
  rw [hvi] at h1
  simp only at h1
  subst h1
  refine ⟨?_, ?_, ?_⟩ <;>
    simp [verifyBlocking, verifyAsyncFn, verifyCallback, hvi, h2]

theorem c5_amended_witness :
    ((verifyInternal ⟨0, false, false⟩
        (fun _ => some ⟨.vNull, .pObj none none, "sg"⟩)
        (fun _ => .error ⟨"JsonWebTokenError", "invalid signature"⟩)
        ⟨[]⟩ ("tok") (.vBool false) 1000).1
      = .ok ⟨some ⟨"JsonWebTokenError", "invalid signature"⟩,
             .payloadOnly (.pObj none none)⟩)
    ∧ ((verifyBlocking ⟨0, false, false⟩
        (fun _ => some ⟨.vNull, .pObj none none, "sg"⟩)
        (fun _ => .error ⟨"JsonWebTokenError", "invalid signature"⟩)
        ⟨[]⟩ ("tok") (.vBool false) 1000).1
      = .error (errorCtor ⟨"JsonWebTokenError", "invalid signature"⟩)
    ∧ (verifyAsyncFn ⟨0, false, false⟩
        (fun _ => some ⟨.vNull, .pObj none none, "sg"⟩)
        (fun _ => .error ⟨"JsonWebTokenError", "invalid signature"⟩)
        ⟨[]⟩ ("tok") (.vBool false) 1000).1
      = .error ⟨"JsonWebTokenError", "invalid signature"⟩
    ∧ (verifyCallback ⟨0, false, false⟩
        (fun _ => some ⟨.vNull, .pObj none none, "sg"⟩)
        (fun _ => .error ⟨"JsonWebTokenError", "invalid signature"⟩)
        ⟨[]⟩ ("tok") (.vBool false) 1000).1
      = .ok (some ⟨"JsonWebTokenError", "invalid signature"⟩,
             .payloadOnly (.pObj none none))) :=
  ⟨by decide,
   c5_amended ⟨0, false, false⟩
     (fun _ => some ⟨.vNull, .pObj none none, "sg"⟩)
     (fun _ => .error ⟨"JsonWebTokenError", "invalid signature"⟩)
     ⟨[]⟩ ("tok") (.vBool false) 1000
     ⟨some ⟨"JsonWebTokenError", "invalid signature"⟩, .payloadOnly (.pObj none none)⟩
     ⟨"JsonWebTokenError", "invalid signature"⟩ (by decide) rfl⟩

/-- Claim C8 as stated is refuted: a cached token whose claims are a bare
string payload gets an entry with no TTL, yet the diagnostic returns some 0
(the dump exposes e as the insertion timestamp for entries without maxAge,
and the method unconditionally computes Math.floor((e - now) / 1000) for any
found entry), not null as the claim requires. -/
theorem c8_counterexample :
    (verifyInternal ⟨0, false, false⟩
        (fun _ => some ⟨.vNull, .pStr ("hi"), "sg"⟩)
        (fun _ => .ok .vNull) ⟨[]⟩ ("tok") (.vBool false) 2000).2.1.find ("tok")
      = some ⟨none, ⟨.vNull, .pStr ("hi"), "sg"⟩, 2000, none⟩
    ∧ getMaxAgeOf (verifyInternal ⟨0, false, false⟩
        (fun _ => some ⟨.vNull, .pStr ("hi"), "sg"⟩)
        (fun _ => .ok .vNull) ⟨[]⟩ ("tok") (.vBool false) 2000).2.1 ("tok") 2000
      = some 0 := by decide

/-- Claim C8 amended: the diagnostic returns null exactly when no live entry
for the token is found (absent or stale); for a live entry with a TTL it
returns the floor of the seconds until the scheduled expiry; for a live
entry with no TTL it does not return null but the floor of
(insertedAt - now) / 1000, which is never positive once the clock is at or
past the insertion instant. -/
theorem c8_amended (st : Store) (token : String) (nowMs : Nat) :
    (st.find token = none → getMaxAgeOf st token nowMs = none)
    ∧ (∀ en : Entry, st.find token = some en → en.isStale nowMs = true →
        getMaxAgeOf st token nowMs = none)
    ∧ (∀ en : Entry, ∀ m : Int, st.find token = some en →
        en.isStale nowMs = false → en.maxAge = some m →
        getMaxAgeOf st token nowMs
          = some (((en.insertedAt : Int) + m - (nowMs : Int)) / 1000))
    ∧ (∀ en : Entry, st.find token = some en →
        en.isStale nowMs = false → en.maxAge = none →
        getMaxAgeOf st token nowMs
          = some (((en.insertedAt : Int) - (nowMs : Int)) / 1000)
        ∧ (en.insertedAt ≤ nowMs →
            ((en.insertedAt : Int) - (nowMs : Int)) / 1000 ≤ 0)) := by
  refine ⟨?_, ?_, ?_, ?_⟩
  · intro h
    simp [getMaxAgeOf, h]
  · intro en h hs
    simp [getMaxAgeOf, h, hs]
  · intro en m h hs hm
    simp [getMaxAgeOf, h, hs, hm]
  · intro en h hs hm
    constructor
    · simp [getMaxAgeOf, h, hs, hm]
    · intro hle
      have h0 : ((en.insertedAt : Int) - (nowMs : Int)) ≤ 0 := by
        omega
      have := Int.ediv_le_ediv (a := (en.insertedAt : Int) - (nowMs : Int))
        (b := (0 : Int)) (c := (1000 : Int)) (by norm_num) h0
      simpa using this

theorem c8_amended_witness :
    (Store.find ⟨[(("tok"), ⟨none, ⟨.vNull, .pStr ("hi"), "sg"⟩, 2000, none⟩)]⟩ ("tok")
      = some ⟨none, ⟨.vNull, .pStr ("hi"), "sg"⟩, 2000, none⟩)
    ∧ Entry.isStale ⟨none, ⟨.vNull, .pStr ("hi"), "sg"⟩, 2000, none⟩ 2500 = false
    ∧ (getMaxAgeOf ⟨[(("tok"), ⟨none, ⟨.vNull, .pStr ("hi"), "sg"⟩, 2000, none⟩)]⟩ ("tok") 2500
        = some (((2000 : Int) - (2500 : Int)) / 1000)
      ∧ (2000 ≤ 2500 →
          ((2000 : Int) - (2500 : Int)) / 1000 ≤ 0)) :=
  ⟨by decide, by decide,
   (c8_amended ⟨[(("tok"), ⟨none, ⟨.vNull, .pStr ("hi"), "sg"⟩, 2000, none⟩)]⟩
       ("tok") 2500).2.2.2
     ⟨none, ⟨.vNull, .pStr ("hi"), "sg"⟩, 2000, none⟩ (by decide) (by decide) rfl⟩

/-- Claim C1 as stated is refuted by sub-second clock slop: the TTL is
computed from the whole-second clock (Math.floor(Date.now() / 1000)) but the
store works in milliseconds from the exact insertion instant. A token with
exp 10 (deadline second 10) inserted at ms 1500 receives maxAge
(10 - 1) * 1000 = 9000 ms, so the entry is still served by has at ms 10400,
a time at or past the deadline 10 * 1000. -/
theorem c1_counterexample :
    deadlineSec ⟨0, false, false⟩ (.pObj none (some 10)) 1500 = some 10
    ∧ (verifyInternal ⟨0, false, false⟩
        (fun _ => some ⟨.vNull, .pObj none (some 10), "sg"⟩)
        (fun _ => .ok .vNull) ⟨[]⟩ ("tok") (.vBool false) 1500).2.1.hasKey ("tok") 10400
      = true
    ∧ 10 * 1000 ≤ 10400 := by decide

/-- Claim C1 amended: an entry inserted on a miss with a scheduled deadline d
(seconds) is never served once the ms clock reaches d * 1000 + 1000, one
second past the deadline (the slack the whole-second TTL computation can add
to a mid-second insertion): from then on has is false and a fresh verify
runs the miss path and invokes the verifier again (exactly once). -/
theorem c1_amended (cfg : Config) (dec : String → Option Decoded)
    (vf : String → Except JsError JsVal) (st : Store) (token : String)
    (complete complete2 : JsVal) (t1 t2 : Nat) (dcd : Decoded) (d : Int)
    (hc : (jsTypeof complete == "string") = false)
    (hc2 : (jsTypeof complete2 == "string") = false)
    (hmiss : st.hasKey token t1 = false)
    (hdec : dec token = some dcd)
    (hdl : deadlineSec cfg dcd.payload t1 = some d)
    (ht2 : d * 1000 + 1000 ≤ (t2 : Int)) :
    (verifyInternal cfg dec vf st token complete t1).2.1.hasKey token t2 = false
    ∧ (verifyInternal cfg dec vf
        (verifyInternal cfg dec vf st token complete t1).2.1
        token complete2 t2).2.2.verifierCalls = 1 := by
  have hma : getMaxAge cfg dcd.payload t1
      = some ((d - ((t1 / 1000 : Nat) : Int)) * 1000) := by
    rw [getMaxAge_eq_deadline, hdl]
    rfl
  have hstale : Entry.isStale
      ⟨errPart (vf token), dcd, t1, getMaxAge cfg dcd.payload t1⟩ t2 = true := by
    simp only [Entry.isStale, hma, decide_eq_true_eq]
    have h5 : t1 % 1000 < 1000 := Nat.mod_lt _ (by norm_num)
    have h6 : 1000 * (t1 / 1000) + t1 % 1000 = t1 := Nat.div_add_mod t1 1000
    omega
  have hrun : verifyInternal cfg dec vf st token complete t1
      = (.ok ⟨errPart (vf token), shapeResult complete dcd⟩,
         st.set token (errPart (vf token)) dcd (getMaxAge cfg dcd.payload t1) t1,
         ⟨1, 1, 1, 1⟩) := by
    simp [verifyInternal, hc, hmiss, hdec]
  have hkey : (verifyInternal cfg dec vf st token complete t1).2.1.hasKey token t2
      = false := by
    rw [hrun]
    simp [Store.hasKey, store_find_set, hstale]
  refine ⟨hkey, ?_⟩
  have hkey2 : (st.set token (errPart (vf token)) dcd
      (getMaxAge cfg dcd.payload t1) t1).hasKey token t2 = false := by
    rw [hrun] at hkey
    exact hkey
  rw [hrun]
  simp [verifyInternal, hc2, hkey2, hdec]

/-- After a miss stores an entry, the entry is alive at the very instant of
insertion (its TTL is either unset or at least a full second). -/
theorem hasKey_set_now (st : Store) (token : String) (error : Option JsError)
    (dcd : Decoded) (cfg : Config) (t : Nat) :
    (st.set token error dcd (getMaxAge cfg dcd.payload t) t).hasKey token t = true := by
  simp only [Store.hasKey, store_find_set]
  cases hma : getMaxAge cfg dcd.payload t with
  | none => simp [Entry.isStale, hma]
  | some m =>
    have := getMaxAge_pos cfg dcd.payload t m hma
    simp only [Entry.isStale, hma, Bool.not_eq_true', decide_eq_false_iff_not]
    omega

/-- Claim C3: calling the verification routine twice in succession at the
same instant yields identical outcomes, the verifier primitive runs at most
once across the two calls, and on a cache hit the stored (error, result)
pair is shaped and returned with no verifier call and no TTL recomputation. -/
theorem c3_idempotent (cfg : Config) (dec : String → Option Decoded)
    (vf : String → Except JsError JsVal) (st : Store) (token : String)
    (complete : JsVal) (t : Nat)
    (hc : (jsTypeof complete == "string") = false) :
    (verifyInternal cfg dec vf st token complete t).1
      = (verifyInternal cfg dec vf
          (verifyInternal cfg dec vf st token complete t).2.1 token complete t).1
    ∧ (verifyInternal cfg dec vf st token complete t).2.2.verifierCalls
      + (verifyInternal cfg dec vf
          (verifyInternal cfg dec vf st token complete t).2.1
          token complete t).2.2.verifierCalls ≤ 1
    ∧ (st.hasKey token t = true →
        (verifyInternal cfg dec vf st token complete t).2.2.verifierCalls = 0
        ∧ (verifyInternal cfg dec vf st token complete t).2.2.maxAgeCalls = 0
        ∧ ∀ en : Entry, st.find token = some en →
            (verifyInternal cfg dec vf st token complete t).1
              = .ok ⟨en.error, shapeResult complete en.result⟩) := by
  by_cases hk : st.hasKey token t = true
  · rcases hf : st.find token with _ | en
    · rw [Store.hasKey, hf] at hk
      exact absurd hk (by simp)
    · have hrun : verifyInternal cfg dec vf st token complete t
          = (.ok ⟨en.error, shapeResult complete en.result⟩, st, ⟨0, 0, 2, 0⟩) := by
        simp [verifyInternal, hc, hk, hf]
      refine ⟨by simp [hrun], by simp [hrun], ?_⟩
      intro _
      refine ⟨by simp [hrun], by simp [hrun], ?_⟩
      intro en2 hf2
      injection hf2 with hf2
      subst hf2
      simp [hrun]
  · have hk2 : st.hasKey token t = false := by
      cases h : st.hasKey token t
      · rfl
      · exact absurd h hk
    rcases hd : dec token with _ | dcd
    · have hrun : verifyInternal cfg dec vf st token complete t
          = (.error typeErrorNullPayload, st, ⟨0, 0, 1, 0⟩) := by
        simp [verifyInternal, hc, hk2, hd]
      refine ⟨by simp [hrun], by simp [hrun], ?_⟩
      intro h
      exact absurd h hk
    · have hrun : verifyInternal cfg dec vf st token complete t
          = (.ok ⟨errPart (vf token), shapeResult complete dcd⟩,
             st.set token (errPart (vf token)) dcd (getMaxAge cfg dcd.payload t) t,
             ⟨1, 1, 1, 1⟩) := by
        simp [verifyInternal, hc, hk2, hd]
      have halive := hasKey_set_now st token (errPart (vf token)) dcd cfg t
      have hrun2 : verifyInternal cfg dec vf
          (st.set token (errPart (vf token)) dcd (getMaxAge cfg dcd.payload t) t)
          token complete t
          = (.ok ⟨errPart (vf token), shapeResult complete dcd⟩,
             st.set token (errPart (vf token)) dcd (getMaxAge cfg dcd.payload t) t,
             ⟨0, 0, 2, 0⟩) := by
        simp [verifyInternal, hc, halive, store_find_set]
      refine ⟨by simp [hrun, hrun2], by simp [hrun, hrun2], ?_⟩
      intro h
      exact absurd h hk

theorem c3_idempotent_witness :
    ((jsTypeof (.vBool false) == "string") = false
    ∧ Store.hasKey ⟨[(("tok"), ⟨none, ⟨.vNull, .pObj none none, "sg"⟩, 900, none⟩)]⟩
        ("tok") 1000 = true)
    ∧ ((verifyInternal ⟨0, false, false⟩
        (fun _ => some ⟨.vNull, .pObj none none, "sg"⟩)
        (fun _ => .ok .vNull)
        ⟨[(("tok"), ⟨none, ⟨.vNull, .pObj none none, "sg"⟩, 900, none⟩)]⟩
        ("tok") (.vBool false) 1000).1
      = (verifyInternal ⟨0, false, false⟩
          (fun _ => some ⟨.vNull, .pObj none none, "sg"⟩)
          (fun _ => .ok .vNull)
          (verifyInternal ⟨0, false, false⟩
            (fun _ => some ⟨.vNull, .pObj none none, "sg"⟩)
            (fun _ => .ok .vNull)
            ⟨[(("tok"), ⟨none, ⟨.vNull, .pObj none none, "sg"⟩, 900, none⟩)]⟩
            ("tok") (.vBool false) 1000).2.1 ("tok") (.vBool false) 1000).1
    ∧ (verifyInternal ⟨0, false, false⟩
        (fun _ => some ⟨.vNull, .pObj none none, "sg"⟩)
        (fun _ => .ok .vNull)
        ⟨[(("tok"), ⟨none, ⟨.vNull, .pObj none none, "sg"⟩, 900, none⟩)]⟩
        ("tok") (.vBool false) 1000).2.2.verifierCalls
      + (verifyInternal ⟨0, false, false⟩
          (fun _ => some ⟨.vNull, .pObj none none, "sg"⟩)
          (fun _ => .ok .vNull)
          (verifyInternal ⟨0, false, false⟩
            (fun _ => some ⟨.vNull, .pObj none none, "sg"⟩)
            (fun _ => .ok .vNull)
            ⟨[(("tok"), ⟨none, ⟨.vNull, .pObj none none, "sg"⟩, 900, none⟩)]⟩
            ("tok") (.vBool false) 1000).2.1 ("tok") (.vBool false) 1000).2.2.verifierCalls
      ≤ 1) :=
  ⟨⟨by decide, by decide⟩,
   (c3_idempotent ⟨0, false, false⟩
      (fun _ => some ⟨.vNull, .pObj none none, "sg"⟩)
      (fun _ => .ok .vNull)
      ⟨[(("tok"), ⟨none, ⟨.vNull, .pObj none none, "sg"⟩, 900, none⟩)]⟩
      ("tok") (.vBool false) 1000 (by decide)).1,
   (c3_idempotent ⟨0, false, false⟩
      (fun _ => some ⟨.vNull, .pObj none none, "sg"⟩)
      (fun _ => .ok .vNull)
      ⟨[(("tok"), ⟨none, ⟨.vNull, .pObj none none, "sg"⟩, 900, none⟩)]⟩
      ("tok") (.vBool false) 1000 (by decide)).2.1⟩

/-- Claim C4: for a decodable token whose verification fails with error e,
the first (miss) call caches the failure (has is true immediately, at the
very call instant), and every later call while the entry is alive returns
the stored error e from the entry without any fresh verifier invocation. -/
theorem c4_negative_caching (cfg : Config) (dec : String → Option Decoded)
    (vf : String → Except JsError JsVal) (st : Store) (token : String)
    (complete complete2 : JsVal) (t t2 : Nat) (dcd : Decoded) (e : JsError)
    (hc : (jsTypeof complete == "string") = false)
    (hc2 : (jsTypeof complete2 == "string") = false)
    (hmiss : st.hasKey token t = false)
    (hdec : dec token = some dcd)
    (hvf : vf token = .error e) :
    (verifyInternal cfg dec vf st token complete t).1
      = .ok ⟨some e, shapeResult complete dcd⟩
    ∧ (verifyInternal cfg dec vf st token complete t).2.1.hasKey token t = true
    ∧ ((verifyInternal cfg dec vf st token complete t).2.1.hasKey token t2 = true →
        (verifyInternal cfg dec vf
          (verifyInternal cfg dec vf st token complete t).2.1
          token complete2 t2).1
          = .ok ⟨some e, shapeResult complete2 dcd⟩
        ∧ (verifyInternal cfg dec vf
            (verifyInternal cfg dec vf st token complete t).2.1
            token complete2 t2).2.2.verifierCalls = 0) := by
  have he : errPart (vf token) = some e := by rw [hvf]; rfl
  have hrun : verifyInternal cfg dec vf st token complete t
      = (.ok ⟨some e, shapeResult complete dcd⟩,
         st.set token (some e) dcd (getMaxAge cfg dcd.payload t) t,
         ⟨1, 1, 1, 1⟩) := by
    simp [verifyInternal, hc, hmiss, hdec, he]
  refine ⟨by rw [hrun], ?_, ?_⟩
  · rw [hrun]
    exact hasKey_set_now st token (some e) dcd cfg t
  · intro halive
    rw [hrun] at halive ⊢
    simp only at halive ⊢
    simp [verifyInternal, hc2, halive, store_find_set]

theorem c4_negative_caching_witness :
    ((jsTypeof (.vBool false) == "string") = false
    ∧ Store.hasKey ⟨[]⟩ ("tok") 1000 = false
    ∧ (fun (_ : String) => some (⟨.vNull, .pObj none none, "sg"⟩ : Decoded)) ("tok")
        = some ⟨.vNull, .pObj none none, "sg"⟩
    ∧ (fun (_ : String) =>
        (.error ⟨"JsonWebTokenError", "invalid signature"⟩ : Except JsError JsVal)) ("tok")
        = .error ⟨"JsonWebTokenError", "invalid signature"⟩)
    ∧ ((verifyInternal ⟨0, false, false⟩
        (fun _ => some ⟨.vNull, .pObj none none, "sg"⟩)
        (fun _ => .error ⟨"JsonWebTokenError", "invalid signature"⟩)
        ⟨[]⟩ ("tok") (.vBool false) 1000).1
      = .ok ⟨some ⟨"JsonWebTokenError", "invalid signature"⟩,
             .payloadOnly (.pObj none none)⟩
    ∧ (verifyInternal ⟨0, false, false⟩
        (fun _ => some ⟨.vNull, .pObj none none, "sg"⟩)
        (fun _ => .error ⟨"JsonWebTokenError", "invalid signature"⟩)
        ⟨[]⟩ ("tok") (.vBool false) 1000).2.1.hasKey ("tok") 1000 = true) :=
  ⟨⟨by decide, by decide, rfl, rfl⟩,
   (c4_negative_caching ⟨0, false, false⟩
      (fun _ => some ⟨.vNull, .pObj none none, "sg"⟩)
      (fun _ => .error ⟨"JsonWebTokenError", "invalid signature"⟩)
      ⟨[]⟩ ("tok") (.vBool false) (.vBool false) 1000 1000
      ⟨.vNull, .pObj none none, "sg"⟩ ⟨"JsonWebTokenError", "invalid signature"⟩
      (by decide) (by decide) (by decide) rfl rfl).1,
   (c4_negative_caching ⟨0, false, false⟩
      (fun _ => some ⟨.vNull, .pObj none none, "sg"⟩)
      (fun _ => .error ⟨"JsonWebTokenError", "invalid signature"⟩)
      ⟨[]⟩ ("tok") (.vBool false) (.vBool false) 1000 1000
      ⟨.vNull, .pObj none none, "sg"⟩ ⟨"JsonWebTokenError", "invalid signature"⟩
      (by decide) (by decide) (by decide) rfl rfl).2.1⟩

/-- Claim C9: with the default configuration (clockTolerance 0, neither
check ignored), a token carrying an nbf in the future and an exp further in
the future is scheduled at the nbf boundary: the computed TTL is
(nbf - now) * 1000 ms, and right after the miss call the diagnostic
remaining max-age equals nbf - now seconds, which differs from exp - now. -/
theorem c9_nbf_precedence (dec : String → Option Decoded)
    (vf : String → Except JsError JsVal) (st : Store) (token : String)
    (complete : JsVal) (t : Nat) (dcd : Decoded) (nbf exp : Int)
    (hc : (jsTypeof complete == "string") = false)
    (hmiss : st.hasKey token t = false)
    (hdec : dec token = some dcd)
    (hp : dcd.payload = .pObj (some nbf) (some exp))
    (hnbf : ((t / 1000 : Nat) : Int) < nbf)
    (hexp : nbf < exp) :
    getMaxAge ⟨0, false, false⟩ dcd.payload t
      = some ((nbf - ((t / 1000 : Nat) : Int)) * 1000)
    ∧ getMaxAgeOf (verifyInternal ⟨0, false, false⟩ dec vf st token complete t).2.1
        token t
      = some (nbf - ((t / 1000 : Nat) : Int))
    ∧ nbf - ((t / 1000 : Nat) : Int) ≠ exp - ((t / 1000 : Nat) : Int) := by
  have hq0 : (0 : Int) ≤ ((t / 1000 : Nat) : Int) := Int.ofNat_nonneg _
  have h0 : nbf ≠ 0 := by omega
  have hma : getMaxAge ⟨0, false, false⟩ dcd.payload t
      = some ((nbf - ((t / 1000 : Nat) : Int)) * 1000) := by
    rw [hp]
    simp only [getMaxAge, numTruthy, Option.getD_some]
    rw [if_pos]
    · norm_num
    · simp only [Bool.not_false, Bool.and_eq_true, bne_iff_ne, decide_eq_true_eq,
        true_and]
      exact ⟨h0, by omega⟩
  have hrun : verifyInternal ⟨0, false, false⟩ dec vf st token complete t
      = (.ok ⟨errPart (vf token), shapeResult complete dcd⟩,
         st.set token (errPart (vf token)) dcd
           (getMaxAge ⟨0, false, false⟩ dcd.payload t) t,
         ⟨1, 1, 1, 1⟩) := by
    simp [verifyInternal, hc, hmiss, hdec]
  refine ⟨hma, ?_, by omega⟩
  rw [hrun]
  simp only [getMaxAgeOf, store_find_set, hma, Entry.isStale]
  have hpos : (0 : Int) < (nbf - ((t / 1000 : Nat) : Int)) * 1000 := by
    have : (0 : Int) < nbf - ((t / 1000 : Nat) : Int) := by omega
    positivity
  rw [if_neg]
  · congr 1
    have harith : (t : Int) + (nbf - ((t / 1000 : Nat) : Int)) * 1000 - (t : Int)
        = (nbf - ((t / 1000 : Nat) : Int)) * 1000 := by ring
    rw [Option.getD_some, harith]
    exact Int.mul_ediv_cancel _ (by norm_num)
  · simp only [Option.getD_some, decide_eq_true_eq, Bool.not_eq_true',
      decide_eq_false_iff_not, not_lt]
    omega

theorem c9_nbf_precedence_witness :
    ((jsTypeof (.vBool false) == "string") = false
    ∧ Store.hasKey ⟨[]⟩ ("tok") 1500 = false
    ∧ ((1500 / 1000 : Nat) : Int) < 100 ∧ (100 : Int) < 200)
    ∧ (getMaxAge ⟨0, false, false⟩ (.pObj (some 100) (some 200)) 1500
        = some ((100 - ((1500 / 1000 : Nat) : Int)) * 1000)
    ∧ getMaxAgeOf (verifyInternal ⟨0, false, false⟩
        (fun _ => some ⟨.vNull, .pObj (some 100) (some 200), "sg"⟩)
        (fun _ => .error ⟨"NotBeforeError", "jwt not active"⟩)
        ⟨[]⟩ ("tok") (.vBool false) 1500).2.1 ("tok") 1500
      = some (100 - ((1500 / 1000 : Nat) : Int))
    ∧ (100 : Int) - ((1500 / 1000 : Nat) : Int) ≠ 200 - ((1500 / 1000 : Nat) : Int)) :=
  ⟨⟨by decide, by decide, by decide, by decide⟩,
   c9_nbf_precedence
     (fun _ => some ⟨.vNull, .pObj (some 100) (some 200), "sg"⟩)
     (fun _ => .error ⟨"NotBeforeError", "jwt not active"⟩)
     ⟨[]⟩ ("tok") (.vBool false) 1500
     ⟨.vNull, .pObj (some 100) (some 200), "sg"⟩ 100 200
     (by decide) (by decide) rfl rfl (by decide) (by decide)⟩

/-- Claim C10: the verifier return value is discarded. Two verifier oracles
that fail identically but may return arbitrarily different values on success
produce byte-identical results and states through the internal routine, and
on a successful miss the produced result is the shaping of the unverified
decode of the token, independent of what the verifier returned. -/
theorem c10_verifier_discarded (cfg : Config) (dec : String → Option Decoded)
    (st : Store) (token : String) (complete : JsVal) (t : Nat) (dcd : Decoded)
    (vf1 vf2 : String → Except JsError JsVal)
    (hagree : ∀ tk : String, errPart (vf1 tk) = errPart (vf2 tk)) :
    verifyInternal cfg dec vf1 st token complete t
      = verifyInternal cfg dec vf2 st token complete t
    ∧ (st.hasKey token t = false → dec token = some dcd →
        (jsTypeof complete == "string") = false →
        (verifyInternal cfg dec vf1 st token complete t).1
          = .ok ⟨errPart (vf1 token), shapeResult complete dcd⟩) := by
  constructor
  · simp only [verifyInternal, hagree token]
  · intro hmiss hdec hc
    simp [verifyInternal, hc, hmiss, hdec]

theorem c10_verifier_discarded_witness :
    (verifyInternal ⟨0, false, false⟩
        (fun _ => some ⟨.vNull, .pObj none none, "sg"⟩)
        (fun _ => .ok (.vNum 1)) ⟨[]⟩ ("tok") (.vBool false) 1000
      = verifyInternal ⟨0, false, false⟩
          (fun _ => some ⟨.vNull, .pObj none none, "sg"⟩)
          (fun _ => .ok (.vNum 2)) ⟨[]⟩ ("tok") (.vBool false) 1000)
    ∧ (verifyInternal ⟨0, false, false⟩
        (fun _ => some ⟨.vNull, .pObj none none, "sg"⟩)
        (fun _ => .ok (.vNum 1)) ⟨[]⟩ ("tok") (.vBool false) 1000).1
      = .ok ⟨none, .payloadOnly (.pObj none none)⟩ :=
  ⟨(c10_verifier_discarded ⟨0, false, false⟩
      (fun _ => some ⟨.vNull, .pObj none none, "sg"⟩)
      ⟨[]⟩ ("tok") (.vBool false) 1000 ⟨.vNull, .pObj none none, "sg"⟩
      (fun _ => .ok (.vNum 1)) (fun _ => .ok (.vNum 2)) (fun _ => rfl)).1,
   (c10_verifier_discarded ⟨0, false, false⟩
      (fun _ => some ⟨.vNull, .pObj none none, "sg"⟩)
      ⟨[]⟩ ("tok") (.vBool false) 1000 ⟨.vNull, .pObj none none, "sg"⟩
      (fun _ => .ok (.vNum 1)) (fun _ => .ok (.vNum 1)) (fun _ => rfl)).2
     (by decide) rfl (by decide)⟩

theorem c1_amended_witness :
    ((jsTypeof (.vBool false) == "string") = false
    ∧ Store.hasKey ⟨[]⟩ ("tok") 1500 = false
    ∧ deadlineSec ⟨0, false, false⟩ (.pObj none (some 10)) 1500 = some 10
    ∧ (10 : Int) * 1000 + 1000 ≤ (11000 : Nat))
    ∧ ((verifyInternal ⟨0, false, false⟩
        (fun _ => some ⟨.vNull, .pObj none (some 10), "sg"⟩)
        (fun _ => .ok .vNull) ⟨[]⟩ ("tok") (.vBool false) 1500).2.1.hasKey ("tok") 11000
      = false
    ∧ (verifyInternal ⟨0, false, false⟩
        (fun _ => some ⟨.vNull, .pObj none (some 10), "sg"⟩)
        (fun _ => .ok .vNull)
        (verifyInternal ⟨0, false, false⟩
          (fun _ => some ⟨.vNull, .pObj none (some 10), "sg"⟩)
          (fun _ => .ok .vNull) ⟨[]⟩ ("tok") (.vBool false) 1500).2.1
        ("tok") (.vBool false) 11000).2.2.verifierCalls = 1) :=
  ⟨⟨by decide, by decide, by decide, by decide⟩,
   c1_amended ⟨0, false, false⟩
     (fun _ => some ⟨.vNull, .pObj none (some 10), "sg"⟩)
     (fun _ => .ok .vNull) ⟨[]⟩ ("tok") (.vBool false) (.vBool false) 1500 11000
     ⟨.vNull, .pObj none (some 10), "sg"⟩ 10
     (by decide) (by decide) (by decide) (by decide) (by decide) (by decide)⟩
